import Mathlib

set_option autoImplicit false

/-!
Verification of the Umbra Protocol order escrow and matching engine.

The development shallowly embeds the Noir contract code that ships in the
repository (the UmbraEscrow contract and the UmbraPool contract, including
the PoolOrder and OrderNote note types) together with the order-index API
(packages/api/src/handlers.ts and db.ts).

Modelling conventions:
- Token amounts, block numbers, addresses and Field identifiers are
  naturals; arithmetic on amounts uses truncated (floor) division, the
  semantics of the u128 amounts of the AIP-20 token interface the
  contracts target.
- The public counters (order_count, total_volume) are integers so that
  the absence of underflow is expressible.
- Consume-once records: an order log is append-only and a consumed order
  is tracked through a spent-marker set (the nullifier set), following the
  contract comments (fill_order and cancel_order read and nullify the
  order note) and the substrate guarantee that the same marker cannot be
  inserted twice.
- Reverting asserts are modelled with Except: an error leaves the state
  unchanged, which is the atomic-rollback semantics of the platform.
- The collision-resistant pedersen hash is replaced by an executable
  injective encoding of its inputs; no claim depends on its algebraic
  form.
-/

namespace Umbra

/-- Executable stand-in for std hash pedersen_hash over a list of Fields. -/
def pedersen_hash : List Nat → Nat
  | [] => 0
  | x :: xs => Nat.pair x (pedersen_hash xs)

/-! ## UmbraEscrow: note type (docs/01-CONTRACTS.md, order_note.nr) -/

/-- OrderNote from order_note.nr: a private OTC order. -/
structure OrderNote where
  owner : Nat
  sell_token : Nat
  sell_amount : Nat
  buy_token : Nat
  buy_amount : Nat
  deadline : Nat
  nonce : Nat
deriving DecidableEq, Repr

/-- OrderNote.is_expired: current_block > self.deadline. -/
def OrderNote.is_expired (o : OrderNote) (current_block : Nat) : Bool :=
  decide (o.deadline < current_block)

/-! ## UmbraEscrow: contract state and operations (docs/01-CONTRACTS.md, escrow.nr) -/

/-- Errors of the escrow operations. Assert messages in the contract and
the failure taxonomy of the record store map onto these constructors. -/
inductive EscrowError where
  | OrderNotFound
  | AlreadyFilled
  | Expired
  | SelfFill
  | NotOwner
  | FeeTooHigh
deriving DecidableEq, Repr

/-- Storage of the UmbraEscrow contract. orders is the append-only record
log keyed by escrow id; consumed is the spent-marker (nullifier) set. -/
structure EscrowState where
  admin : Nat
  orders : List (Nat × OrderNote)
  consumed : List Nat
  order_count : Int
  total_volume : Int
  fee_recipient : Nat
  fee_bps : Nat
deriving DecidableEq, Repr

/-- Record-log lookup: the first entry stored under the given id. -/
def lookupOrder : List (Nat × OrderNote) → Nat → Option OrderNote
  | [], _ => none
  | (k, o) :: rest, id => if k = id then some o else lookupOrder rest id

/-- constructor of UmbraEscrow: stores the fields without validating
fee_bps (the code performs no cap check at initialization). -/
def escrow_constructor (admin fee_recipient fee_bps : Nat) : EscrowState :=
  { admin := admin
    orders := []
    consumed := []
    order_count := 0
    total_volume := 0
    fee_recipient := fee_recipient
    fee_bps := fee_bps }

/-- Internal public function _increment_order_count. -/
def increment_order_count (current : Int) : Int :=
  current + 1

/-- Internal public function _decrement_order_count: subtracts only when
the current count is positive. -/
def decrement_order_count (current : Int) : Int :=
  if 0 < current then current - 1 else current

/-- Internal public function _record_volume: adds the amount to
total_volume and decrements order_count when it is positive. Returns the
new (total_volume, order_count) pair. -/
def record_volume (amount : Nat) (volume : Int) (count : Int) : Int × Int :=
  (volume + (amount : Int), if 0 < count then count - 1 else count)

/-- Admin fee setter set_fee: asserts the 1 percent cap. The code contains
no caller identity check (its comment defers the admin check), so the
caller argument is unused. -/
def set_fee (caller : Nat) (s : EscrowState) (new_fee_bps : Nat) :
    Except EscrowError EscrowState :=
  let _ := caller
  if new_fee_bps ≤ 100 then .ok { s with fee_bps := new_fee_bps }
  else .error .FeeTooHigh

/-- create_order: builds the note, stores it under the derived escrow id,
locks sell_amount with the token contract and increments order_count. The
code validates neither a pause flag (the contract declares none) nor the
amounts nor the deadline, so the operation cannot fail. -/
def create_order (s : EscrowState)
    (sender sell_token sell_amount buy_token buy_amount deadline nonce : Nat) :
    EscrowState × Nat :=
  let escrow_id := pedersen_hash [sender, sell_token, buy_token, nonce]
  let order : OrderNote :=
    { owner := sender
      sell_token := sell_token
      sell_amount := sell_amount
      buy_token := buy_token
      buy_amount := buy_amount
      deadline := deadline
      nonce := nonce }
  ({ s with
      orders := (escrow_id, order) :: s.orders
      order_count := increment_order_count s.order_count }, escrow_id)

/-- Amounts moved by a successful fill: sell_token to the buyer, buy_token
to the order owner, and the sell_token fee to the fee recipient. -/
structure FillTransfers where
  buyer_receives : Nat
  owner_receives : Nat
  fee_received : Nat
deriving DecidableEq, Repr

/-- fill_order: reads and nullifies the order note, checks expiry and
self-fill, computes fee = sell_amount * fee_bps / 10000, transfers
buy_amount to the owner, sell_amount - fee to the buyer and fee to the
fee recipient, then records volume (which also decrements order_count). -/
def fill_order (s : EscrowState) (buyer escrow_id current_block : Nat) :
    Except EscrowError (EscrowState × FillTransfers) :=
  match lookupOrder s.orders escrow_id with
  | none => .error .OrderNotFound
  | some order =>
    if escrow_id ∈ s.consumed then .error .AlreadyFilled
    else if order.is_expired current_block then .error .Expired
    else if order.owner = buyer then .error .SelfFill
    else
      let fee_amount := order.sell_amount * s.fee_bps / 10000
      let buyer_receives := order.sell_amount - fee_amount
      let vc := record_volume order.sell_amount s.total_volume s.order_count
      .ok ({ s with
              consumed := escrow_id :: s.consumed
              total_volume := vc.1
              order_count := vc.2 },
           { buyer_receives := buyer_receives
             owner_receives := order.buy_amount
             fee_received := fee_amount })

/-- cancel_order: reads and nullifies the order note, checks ownership,
refunds the full sell_amount and decrements order_count. Returns the
refunded amount. -/
def cancel_order (s : EscrowState) (sender escrow_id : Nat) :
    Except EscrowError (EscrowState × Nat) :=
  match lookupOrder s.orders escrow_id with
  | none => .error .OrderNotFound
  | some order =>
    if escrow_id ∈ s.consumed then .error .AlreadyFilled
    else if order.owner = sender then
      .ok ({ s with
              consumed := escrow_id :: s.consumed
              order_count := decrement_order_count s.order_count },
           order.sell_amount)
    else .error .NotOwner

/-! ## Escrow operation sequences -/

/-- User-facing escrow operations. -/
inductive EscrowOp where
  | create (sender sell_token sell_amount buy_token buy_amount deadline nonce : Nat)
  | fill (buyer escrow_id current_block : Nat)
  | cancel (sender escrow_id : Nat)
deriving DecidableEq, Repr

/-- One operation applied to the contract state. -/
def escrowStep (s : EscrowState) : EscrowOp → Except EscrowError EscrowState
  | .create sender st sa bt ba dl n => .ok (create_order s sender st sa bt ba dl n).1
  | .fill buyer id blk =>
    match fill_order s buyer id blk with
    | .ok (s', _) => .ok s'
    | .error e => .error e
  | .cancel sender id =>
    match cancel_order s sender id with
    | .ok (s', _) => .ok s'
    | .error e => .error e

/-- Atomic-rollback application: a failed operation leaves state untouched. -/
def applyOp (s : EscrowState) (op : EscrowOp) : EscrowState :=
  match escrowStep s op with
  | .ok s' => s'
  | .error _ => s

/-- A whole sequence of operations. -/
def runOps (s : EscrowState) : List EscrowOp → EscrowState
  | [] => s
  | op :: ops => runOps (applyOp s op) ops

/-- Whether an operation tries to consume the record of the given id. -/
def EscrowOp.consumes : EscrowOp → Nat → Bool
  | .fill _ id _, i => decide (id = i)
  | .cancel _ id, i => decide (id = i)
  | .create _ _ _ _ _ _ _, _ => false

/-- A record for the id is present in the order log. -/
def hasRecord (s : EscrowState) (id : Nat) : Prop :=
  (lookupOrder s.orders id).isSome

instance (s : EscrowState) (id : Nat) : Decidable (hasRecord s id) := by
  unfold hasRecord; infer_instance

/-! ## UmbraPool: order note (docs/02-ESCROW.md, pool_order.nr)

Side is encoded as in the source: 0 = BUY, 1 = SELL. Order type: 0 =
MARKET, 1 = LIMIT, 2 = IOC. Prices use 1e18 fixed-point scale. -/

/-- Fixed-point price scale used throughout the pool contract. -/
def e18 : Nat := 1000000000000000000

/-- PoolOrder note from pool_order.nr. -/
structure PoolOrder where
  owner : Nat
  base_token : Nat
  quote_token : Nat
  side : Nat
  order_type : Nat
  amount : Nat
  limit_price : Nat
  filled_amount : Nat
  created_at : Nat
  expires_at : Nat
  priority : Nat
  nonce : Nat
deriving DecidableEq, Repr

/-- PoolOrder.new_market: market order, no limit price, priority by time. -/
def PoolOrder.new_market (owner base_token quote_token side amount created_at
    expires_at nonce : Nat) : PoolOrder :=
  { owner := owner
    base_token := base_token
    quote_token := quote_token
    side := side
    order_type := 0
    amount := amount
    limit_price := 0
    filled_amount := 0
    created_at := created_at
    expires_at := expires_at
    priority := created_at
    nonce := nonce }

/-- PoolOrder.new_limit: limit order, priority by limit price. -/
def PoolOrder.new_limit (owner base_token quote_token side amount limit_price
    created_at expires_at nonce : Nat) : PoolOrder :=
  { owner := owner
    base_token := base_token
    quote_token := quote_token
    side := side
    order_type := 1
    amount := amount
    limit_price := limit_price
    filled_amount := 0
    created_at := created_at
    expires_at := expires_at
    priority := limit_price
    nonce := nonce }

/-- PoolOrder.remaining: amount - filled_amount. -/
def PoolOrder.remaining (o : PoolOrder) : Nat :=
  o.amount - o.filled_amount

/-- PoolOrder.is_filled: filled_amount >= amount. -/
def PoolOrder.is_filled (o : PoolOrder) : Bool :=
  decide (o.amount ≤ o.filled_amount)

/-- PoolOrder.is_expired: current_block > expires_at. -/
def PoolOrder.is_expired (o : PoolOrder) (current_block : Nat) : Bool :=
  decide (o.expires_at < current_block)

/-- PoolOrder.is_active: neither filled nor expired. -/
def PoolOrder.is_active (o : PoolOrder) (current_block : Nat) : Bool :=
  !o.is_filled && !o.is_expired current_block

/-- PoolOrder.accepts_price: market orders accept any price; a limit BUY
requires price <= limit, a limit SELL requires price >= limit. -/
def PoolOrder.accepts_price (o : PoolOrder) (price : Nat) : Bool :=
  if o.order_type = 0 then true
  else if o.side = 0 then decide (price ≤ o.limit_price)
  else decide (o.limit_price ≤ price)

/-- PoolOrder.can_match: same pair, opposite sides, both accept the price,
both have remaining amount. -/
def PoolOrder.can_match (o other : PoolOrder) (price : Nat) : Bool :=
  decide (o.base_token = other.base_token) &&
  decide (o.quote_token = other.quote_token) &&
  decide (o.side ≠ other.side) &&
  o.accepts_price price &&
  other.accepts_price price &&
  decide (0 < o.remaining) &&
  decide (0 < other.remaining)

/-- PoolOrder.match_amount: the minimum of both remaining amounts. -/
def PoolOrder.match_amount (o other : PoolOrder) : Nat :=
  let my_remaining := o.remaining
  let their_remaining := other.remaining
  if my_remaining < their_remaining then my_remaining else their_remaining

/-! ## UmbraPool: contract state and operations (docs/02-ESCROW.md, pool.nr) -/

/-- Failure modes of the pool operations. -/
inductive PoolError where
  | Paused
  | PairNotSupported
  | BelowMinimumSize
deriving DecidableEq, Repr

/-- Public configuration and statistics of the UmbraPool contract.
supported_pairs holds the pair-hash keys written to 1; min_order_size is
the per-token minimum map (0 when absent, the default map value). -/
structure PoolConfig where
  admin : Nat
  fee_recipient : Nat
  taker_fee_bps : Nat
  maker_fee_bps : Nat
  total_volume : Int
  total_matches : Int
  paused : Bool
  supported_pairs : List Nat
  min_order_size : List (Nat × Nat)
deriving DecidableEq, Repr

/-- Pool state: configuration plus the private order set. -/
structure PoolState where
  cfg : PoolConfig
  orders : List PoolOrder
deriving DecidableEq, Repr

/-- Public view is_paused: 1 when paused, 0 otherwise. -/
def is_paused (c : PoolConfig) : Nat :=
  if c.paused then 1 else 0

/-- add_supported_pair: writes 1 under hash(base, quote). The code carries
only a comment asking for an admin check; caller is never inspected. -/
def add_supported_pair (caller : Nat) (c : PoolConfig) (base quote : Nat) :
    PoolConfig :=
  let _ := caller
  { c with supported_pairs := pedersen_hash [base, quote] :: c.supported_pairs }

/-- Public view is_pair_supported reading the pair map (1 = supported). -/
def is_pair_supported (c : PoolConfig) (base quote : Nat) : Nat :=
  if pedersen_hash [base, quote] ∈ c.supported_pairs then 1 else 0

/-- set_min_order_size: writes the minimum for a token. The code carries
only a comment asking for an admin check; caller is never inspected. -/
def set_min_order_size (caller : Nat) (c : PoolConfig) (token min_size : Nat) :
    PoolConfig :=
  let _ := caller
  { c with min_order_size := (token, min_size) :: c.min_order_size }

/-- Public view get_min_order_size (0 when the token has no entry). -/
def get_min_order_size (c : PoolConfig) (token : Nat) : Nat :=
  match c.min_order_size.find? (fun p => p.1 = token) with
  | some p => p.2
  | none => 0

/-- Quote collateral locked by _submit_order: a BUY market order locks
amount * oracle price with a 5 percent buffer, a BUY limit order locks
amount * limit_price / 1e18, a SELL order locks the base amount itself. -/
def submit_lock_amount (side order_type amount limit_price oracle_price : Nat) :
    Nat :=
  if side = 0 then
    if order_type = 0 then amount * oracle_price * 105 / (100 * e18)
    else amount * limit_price / e18
  else amount

/-- _submit_order: checks pause, pair whitelist and minimum size, builds
the order, locks collateral and stores the order. Returns the new state,
the order id and the locked collateral amount (the tokens transferred into
the pool; the contract keeps no record of this figure). -/
def submit_order (st : PoolState)
    (sender base_token quote_token side order_type amount limit_price
     expires_in_blocks oracle_price current_block nonce : Nat) :
    Except PoolError (PoolState × Nat × Nat) :=
  if is_paused st.cfg ≠ 0 then .error .Paused
  else if is_pair_supported st.cfg base_token quote_token ≠ 1 then
    .error .PairNotSupported
  else if amount < get_min_order_size st.cfg base_token then
    .error .BelowMinimumSize
  else
    let order_id := pedersen_hash [sender, base_token, quote_token, nonce]
    let order :=
      if order_type = 0 then
        PoolOrder.new_market sender base_token quote_token side amount
          current_block (current_block + expires_in_blocks) nonce
      else
        PoolOrder.new_limit sender base_token quote_token side amount
          limit_price current_block (current_block + expires_in_blocks) nonce
    let locked := submit_lock_amount side order_type amount limit_price oracle_price
    .ok ({ st with orders := order :: st.orders }, order_id, locked)

/-- Refund computed by the pool cancel_order: for a BUY order it is
remaining * limit_price / 1e18 (recomputed from the nominal amount and the
limit price, which is 0 for market orders), for a SELL order the remaining
base amount; nothing moves when remaining is 0. -/
def cancel_refund (order : PoolOrder) : Nat :=
  let remaining := order.remaining
  if 0 < remaining then
    if order.side = 0 then remaining * order.limit_price / e18
    else remaining
  else 0

/-- Amounts moved by _execute_match: base to the buyer, quote to the
seller, the combined base fee to the fee recipient. -/
structure MatchTransfers where
  buyer_receives : Nat
  seller_receives : Nat
  fee_total : Nat
deriving DecidableEq, Repr

/-- _execute_match: computes the quote leg at the fixed-point price,
splits maker and taker by creation time (earlier order is maker), applies
the role fee to each leg, pays the combined base fee to the recipient and
records volume. The function writes nothing back into the order set: the
filled_amount of neither order is touched anywhere on this path. -/
def execute_match (cfg : PoolConfig) (buy_order sell_order : PoolOrder)
    (amount price : Nat) : MatchTransfers × PoolConfig :=
  let quote_amount := amount * price / e18
  let taker_order :=
    if buy_order.created_at < sell_order.created_at then sell_order else buy_order
  let taker_fee := amount * cfg.taker_fee_bps / 10000
  let maker_fee := amount * cfg.maker_fee_bps / 10000
  let buyer_receives :=
    if taker_order.side = 1 then amount - taker_fee else amount - maker_fee
  let seller_receives :=
    if taker_order.side = 0 then
      quote_amount - quote_amount * cfg.taker_fee_bps / 10000
    else
      quote_amount - quote_amount * cfg.maker_fee_bps / 10000
  let total_base_fee := taker_fee + maker_fee
  ({ buyer_receives := buyer_receives
     seller_receives := seller_receives
     fee_total := total_base_fee },
   { cfg with total_volume := cfg.total_volume + (amount : Int) })

/-- One iteration of the match_orders loop for a chosen buy and sell
order: when both are active and compatible at the price, the executed
amount is match_amount and _execute_match runs (followed by the match
counter update); the stored orders are returned unchanged, exactly as in
the contract, which contains no write to the order set on this path. -/
def match_step (st : PoolState) (buy_order sell_order : PoolOrder)
    (price current_block : Nat) :
    Option (PoolState × Nat × MatchTransfers) :=
  if buy_order.is_active current_block && sell_order.is_active current_block &&
      buy_order.can_match sell_order price then
    let amount := buy_order.match_amount sell_order
    let (t, cfg') := execute_match st.cfg buy_order sell_order amount price
    some ({ st with cfg := { cfg' with total_matches := cfg'.total_matches + 1 } },
          amount, t)
  else none

/-! ## Order index API (packages/api/src/db.ts and handlers.ts)

Rows of the orders table. Textual ids and token addresses are modelled as
naturals; the side and the status keep their enumerated values. -/

/-- Order status column (CHECK constraint of the orders table). -/
inductive OrderStatus where
  | ACTIVE
  | PARTIAL
  | FILLED
  | CANCELLED
  | EXPIRED
deriving DecidableEq, Repr

/-- A row of the orders table (the Order interface of db.ts). -/
structure ApiOrder where
  id : Nat
  escrow_address : Nat
  base_token : Nat
  quote_token : Nat
  side : Nat
  order_type : Nat
  status : OrderStatus
  fill_percentage : Nat
  created_at : Nat
  expires_at : Nat
  updated_at : Nat
deriving DecidableEq, Repr

/-- WHERE clause of the listOrders statement: each filter is compared with
COALESCE, so a null parameter matches every row. -/
def matchesFilters (st : Option OrderStatus) (bt qt sd : Option Nat)
    (o : ApiOrder) : Bool :=
  (match st with | none => true | some v => decide (o.status = v)) &&
  (match bt with | none => true | some v => decide (o.base_token = v)) &&
  (match qt with | none => true | some v => decide (o.quote_token = v)) &&
  (match sd with | none => true | some v => decide (o.side = v))

/-- SQLite LIMIT and OFFSET semantics: a negative offset skips nothing and
a negative limit places no upper bound on the returned rows. The ORDER BY
clause of the statement only permutes rows and is not modelled. -/
def sqlLimitOffset {α : Type} (rows : List α) (lim off : Int) : List α :=
  let dropped := rows.drop off.toNat
  if lim < 0 then dropped else dropped.take lim.toNat

/-- The listOrders prepared statement of db.ts. -/
def dbListOrders (rows : List ApiOrder) (st : Option OrderStatus)
    (bt qt sd : Option Nat) (lim off : Int) : List ApiOrder :=
  sqlLimitOffset (rows.filter (matchesFilters st bt qt sd)) lim off

/-- Effective limit computed by the listOrders handler: parseInt of the
limit query parameter with default "50", then capped to 100 only from
above. -/
def handlerLimit (limitParam : Option Int) : Int :=
  let l := limitParam.getD 50
  if l > 100 then 100 else l

/-- The listOrders handler: parses limit and offset (defaults 50 and 0),
caps the limit at 100 and runs the statement. -/
def handlerListOrders (rows : List ApiOrder) (st : Option OrderStatus)
    (bt qt sd : Option Nat) (limitParam offsetParam : Option Int) :
    List ApiOrder :=
  dbListOrders rows st bt qt sd (handlerLimit limitParam) (offsetParam.getD 0)

/-- The updateOrderStatus prepared statement: sets status,
fill_percentage and updated_at on every row whose id matches. -/
def updateOrderStatus (rows : List ApiOrder) (st : OrderStatus)
    (fill now id : Nat) : List ApiOrder :=
  rows.map fun o =>
    if o.id = id then
      { o with status := st, fill_percentage := fill, updated_at := now }
    else o

/-- Responses the cancel handler could conceivably produce; the handler
body only ever builds the success one. -/
inductive CancelResponse where
  | success
  | notFound
  | stateConflict
  | serverError
deriving DecidableEq, Repr

/-- The cancelOrder handler: unconditionally runs updateOrderStatus with
CANCELLED and fill_percentage 0, then returns the success response; no
existence or status check is performed. -/
def apiCancelOrder (rows : List ApiOrder) (id now : Nat) :
    List ApiOrder × CancelResponse :=
  (updateOrderStatus rows .CANCELLED 0 now id, .success)

end Umbra

deriving instance DecidableEq for Except

namespace Umbra

/-! ## Helper lemmas about the escrow operations -/

theorem lookupOrder_cons_isSome (k : Nat) (o : OrderNote)
    (rows : List (Nat × OrderNote)) (id : Nat)
    (h : (lookupOrder rows id).isSome) :
    (lookupOrder ((k, o) :: rows) id).isSome := by
  unfold lookupOrder
  split <;> simp [h]

theorem fill_order_ok_spec (s : EscrowState)
    (buyer escrow_id current_block : Nat) (order : OrderNote)
    (s' : EscrowState) (t : FillTransfers)
    (horder : lookupOrder s.orders escrow_id = some order)
    (hok : fill_order s buyer escrow_id current_block = .ok (s', t)) :
    s' = { s with
            consumed := escrow_id :: s.consumed
            total_volume :=
              (record_volume order.sell_amount s.total_volume s.order_count).1
            order_count :=
              (record_volume order.sell_amount s.total_volume s.order_count).2 } ∧
    t = { buyer_receives :=
            order.sell_amount - order.sell_amount * s.fee_bps / 10000
          owner_receives := order.buy_amount
          fee_received := order.sell_amount * s.fee_bps / 10000 } := by
  simp only [fill_order, horder] at hok
  split_ifs at hok
  rw [Except.ok.injEq, Prod.mk.injEq] at hok
  exact ⟨hok.1.symm, hok.2.symm⟩

theorem fill_order_ok_inv (s : EscrowState)
    (buyer escrow_id current_block : Nat) (s' : EscrowState) (t : FillTransfers)
    (hok : fill_order s buyer escrow_id current_block = .ok (s', t)) :
    (lookupOrder s.orders escrow_id).isSome ∧
    s'.orders = s.orders ∧ s'.consumed = escrow_id :: s.consumed := by
  cases hlk : lookupOrder s.orders escrow_id with
  | none => simp [fill_order, hlk] at hok
  | some order =>
    have h := fill_order_ok_spec s buyer escrow_id current_block order s' t hlk hok
    refine ⟨by simp [hlk], ?_, ?_⟩ <;> rw [h.1]

theorem cancel_order_ok_spec (s : EscrowState) (sender escrow_id : Nat)
    (order : OrderNote) (s' : EscrowState) (refund : Nat)
    (horder : lookupOrder s.orders escrow_id = some order)
    (hok : cancel_order s sender escrow_id = .ok (s', refund)) :
    s' = { s with
            consumed := escrow_id :: s.consumed
            order_count := decrement_order_count s.order_count } ∧
    refund = order.sell_amount := by
  simp only [cancel_order, horder] at hok
  split_ifs at hok
  rw [Except.ok.injEq, Prod.mk.injEq] at hok
  exact ⟨hok.1.symm, hok.2.symm⟩

theorem cancel_order_ok_inv (s : EscrowState) (sender escrow_id : Nat)
    (s' : EscrowState) (refund : Nat)
    (hok : cancel_order s sender escrow_id = .ok (s', refund)) :
    (lookupOrder s.orders escrow_id).isSome ∧
    s'.orders = s.orders ∧ s'.consumed = escrow_id :: s.consumed := by
  cases hlk : lookupOrder s.orders escrow_id with
  | none => simp [cancel_order, hlk] at hok
  | some order =>
    have h := cancel_order_ok_spec s sender escrow_id order s' refund hlk hok
    refine ⟨by simp [hlk], ?_, ?_⟩ <;> rw [h.1]

theorem escrowStep_ok_mono (s : EscrowState) (op : EscrowOp) (s' : EscrowState)
    (h : escrowStep s op = .ok s') (id : Nat) :
    ((lookupOrder s.orders id).isSome → (lookupOrder s'.orders id).isSome) ∧
    (id ∈ s.consumed → id ∈ s'.consumed) := by
  cases op with
  | create sender st sa bt ba dl n =>
    simp only [escrowStep, Except.ok.injEq] at h
    subst h
    exact ⟨fun hs => lookupOrder_cons_isSome _ _ _ _ hs, fun hc => hc⟩
  | fill buyer eid blk =>
    cases hf : fill_order s buyer eid blk with
    | error e => simp [escrowStep, hf] at h
    | ok p =>
      obtain ⟨s₂, t⟩ := p
      simp only [escrowStep, hf, Except.ok.injEq] at h
      subst h
      obtain ⟨-, horders, hcons⟩ := fill_order_ok_inv s buyer eid blk s₂ t hf
      rw [horders, hcons]
      exact ⟨fun hs => hs, fun hc => List.mem_cons_of_mem _ hc⟩
  | cancel sender eid =>
    cases hf : cancel_order s sender eid with
    | error e => simp [escrowStep, hf] at h
    | ok p =>
      obtain ⟨s₂, r⟩ := p
      simp only [escrowStep, hf, Except.ok.injEq] at h
      subst h
      obtain ⟨-, horders, hcons⟩ := cancel_order_ok_inv s sender eid s₂ r hf
      rw [horders, hcons]
      exact ⟨fun hs => hs, fun hc => List.mem_cons_of_mem _ hc⟩

theorem applyOp_mono (s : EscrowState) (op : EscrowOp) (id : Nat) :
    ((lookupOrder s.orders id).isSome →
      (lookupOrder (applyOp s op).orders id).isSome) ∧
    (id ∈ s.consumed → id ∈ (applyOp s op).consumed) := by
  unfold applyOp
  cases h : escrowStep s op with
  | error e => exact ⟨fun hs => hs, fun hc => hc⟩
  | ok s' => exact escrowStep_ok_mono s op s' h id

theorem runOps_mono (s : EscrowState) (tr : List EscrowOp) (id : Nat) :
    ((lookupOrder s.orders id).isSome →
      (lookupOrder (runOps s tr).orders id).isSome) ∧
    (id ∈ s.consumed → id ∈ (runOps s tr).consumed) := by
  induction tr generalizing s with
  | nil => exact ⟨fun hs => hs, fun hc => hc⟩
  | cons op ops ih =>
    have h1 := applyOp_mono s op id
    have h2 := ih (applyOp s op)
    exact ⟨fun hs => h2.1 (h1.1 hs), fun hc => h2.2 (h1.2 hc)⟩

theorem step_consumed_conflict (s : EscrowState) (op : EscrowOp) (id : Nat)
    (hrec : (lookupOrder s.orders id).isSome) (hcons : id ∈ s.consumed)
    (hop : op.consumes id = true) :
    escrowStep s op = .error .AlreadyFilled := by
  cases op with
  | create sender st sa bt ba dl n => simp [EscrowOp.consumes] at hop
  | fill buyer eid blk =>
    have heid : eid = id := by simpa [EscrowOp.consumes] using hop
    subst heid
    obtain ⟨order, hlk⟩ := Option.isSome_iff_exists.mp hrec
    simp [escrowStep, fill_order, hlk, hcons]
  | cancel sender eid =>
    have heid : eid = id := by simpa [EscrowOp.consumes] using hop
    subst heid
    obtain ⟨order, hlk⟩ := Option.isSome_iff_exists.mp hrec
    simp [escrowStep, cancel_order, hlk, hcons]

theorem step_consumes_marks (s : EscrowState) (op : EscrowOp)
    (s' : EscrowState) (id : Nat)
    (hop : op.consumes id = true) (hstep : escrowStep s op = .ok s') :
    (lookupOrder s'.orders id).isSome ∧ id ∈ s'.consumed := by
  cases op with
  | create sender st sa bt ba dl n => simp [EscrowOp.consumes] at hop
  | fill buyer eid blk =>
    have heid : eid = id := by simpa [EscrowOp.consumes] using hop
    subst heid
    cases hf : fill_order s buyer eid blk with
    | error e => simp [escrowStep, hf] at hstep
    | ok p =>
      obtain ⟨s₂, t⟩ := p
      simp only [escrowStep, hf, Except.ok.injEq] at hstep
      subst hstep
      obtain ⟨hsome, horders, hcons⟩ := fill_order_ok_inv s buyer eid blk s₂ t hf
      rw [horders, hcons]
      exact ⟨hsome, List.mem_cons_self _ _⟩
  | cancel sender eid =>
    have heid : eid = id := by simpa [EscrowOp.consumes] using hop
    subst heid
    cases hf : cancel_order s sender eid with
    | error e => simp [escrowStep, hf] at hstep
    | ok p =>
      obtain ⟨s₂, r⟩ := p
      simp only [escrowStep, hf, Except.ok.injEq] at hstep
      subst hstep
      obtain ⟨hsome, horders, hcons⟩ := cancel_order_ok_inv s sender eid s₂ r hf
      rw [horders, hcons]
      exact ⟨hsome, List.mem_cons_self _ _⟩

/-! ## Concrete states used by the witnesses -/

/-- A live escrow order: account 5 sells 1000 of token 7 for 500 of
token 8, deadline at block 50. -/
def demoOrder : OrderNote :=
  { owner := 5, sell_token := 7, sell_amount := 1000, buy_token := 8
    buy_amount := 500, deadline := 50, nonce := 3 }

/-- Escrow contract state holding demoOrder under id 1. -/
def demoEscrow : EscrowState :=
  { admin := 1, orders := [(1, demoOrder)], consumed := [], order_count := 1
    total_volume := 0, fee_recipient := 9, fee_bps := 30 }

/-- The state after account 2 fills order 1 at block 10. -/
def demoFilled : EscrowState :=
  applyOp demoEscrow (.fill 2 1 10)

/-- The escrow order of testable-property scenario 6: sell 10 units of
asset A (18 decimals) for 35000 of asset B at 30 bps fee. -/
def scenarioOrder : OrderNote :=
  { owner := 5, sell_token := 7, sell_amount := 10000000000000000000
    buy_token := 8, buy_amount := 35000, deadline := 1000, nonce := 3 }

/-- Escrow state holding scenarioOrder under id 1 with fee_bps 30. -/
def scenarioEscrow : EscrowState :=
  { admin := 1, orders := [(1, scenarioOrder)], consumed := [], order_count := 1
    total_volume := 0, fee_recipient := 9, fee_bps := 30 }

/-- State after the scenario fill: order consumed, volume recorded,
counter decremented. -/
def scenarioFilled : EscrowState :=
  { admin := 1, orders := [(1, scenarioOrder)], consumed := [1], order_count := 0
    total_volume := 10000000000000000000, fee_recipient := 9, fee_bps := 30 }

/-- Transfers of the scenario fill: the buyer receives 9.97 units, the
seller 35000, the fee recipient 0.03 units. -/
def scenarioTransfers : FillTransfers :=
  { buyer_receives := 9970000000000000000
    owner_receives := 35000
    fee_received := 30000000000000000 }

/-! ## Claim theorems: escrow -/

/-- C1: every successful escrow fill pays the buyer exactly
sell_amount - floor(sell_amount * fee_bps / 10000) of the sell asset, the
order owner exactly buy_amount of the buy asset and the fee recipient
exactly floor(sell_amount * fee_bps / 10000) of the sell asset, and the
sell-asset amounts paid to buyer and fee recipient sum exactly to
sell_amount. -/
theorem escrow_fill_conservation
    (s : EscrowState) (buyer escrow_id current_block : Nat) (order : OrderNote)
    (s' : EscrowState) (t : FillTransfers)
    (horder : lookupOrder s.orders escrow_id = some order)
    (hfee : s.fee_bps ≤ 10000)
    (hok : fill_order s buyer escrow_id current_block = .ok (s', t)) :
    t.buyer_receives =
      order.sell_amount - order.sell_amount * s.fee_bps / 10000 ∧
    t.owner_receives = order.buy_amount ∧
    t.fee_received = order.sell_amount * s.fee_bps / 10000 ∧
    t.buyer_receives + t.fee_received = order.sell_amount := by
  obtain ⟨-, ht⟩ :=
    fill_order_ok_spec s buyer escrow_id current_block order s' t horder hok
  subst ht
  refine ⟨rfl, rfl, rfl, ?_⟩
  have hle : order.sell_amount * s.fee_bps / 10000 ≤ order.sell_amount := by
    calc order.sell_amount * s.fee_bps / 10000
        ≤ order.sell_amount * 10000 / 10000 :=
          Nat.div_le_div_right (Nat.mul_le_mul_left order.sell_amount hfee)
      _ = order.sell_amount := by simp
  exact Nat.sub_add_cancel hle

/-- Witness for C1 at the scenario input: fee 30 bps on a sale of 10
units (18 decimals) yields 9.97 units to the buyer and 0.03 to the fee
recipient. -/
theorem escrow_fill_conservation_witness :
    lookupOrder scenarioEscrow.orders 1 = some scenarioOrder ∧
    scenarioEscrow.fee_bps ≤ 10000 ∧
    fill_order scenarioEscrow 2 1 100 = .ok (scenarioFilled, scenarioTransfers) ∧
    (scenarioTransfers.buyer_receives =
        scenarioOrder.sell_amount -
          scenarioOrder.sell_amount * scenarioEscrow.fee_bps / 10000 ∧
      scenarioTransfers.owner_receives = scenarioOrder.buy_amount ∧
      scenarioTransfers.fee_received =
        scenarioOrder.sell_amount * scenarioEscrow.fee_bps / 10000 ∧
      scenarioTransfers.buyer_receives + scenarioTransfers.fee_received =
        scenarioOrder.sell_amount) :=
  ⟨by decide, by decide, by decide,
    escrow_fill_conservation scenarioEscrow 2 1 100 scenarioOrder
      scenarioFilled scenarioTransfers (by decide) (by decide) (by decide)⟩

/-- C2: once a fill or a cancel of an escrow id has succeeded, every
later fill_order or cancel_order call on the same id, after any further
sequence of operations, fails with AlreadyFilled and leaves the state
unchanged. -/
theorem escrow_exactly_once
    (s : EscrowState) (op : EscrowOp) (s' : EscrowState) (id : Nat)
    (hop : op.consumes id = true) (hstep : escrowStep s op = .ok s')
    (tr : List EscrowOp) (op' : EscrowOp) (hop' : op'.consumes id = true) :
    escrowStep (runOps s' tr) op' = .error .AlreadyFilled ∧
    applyOp (runOps s' tr) op' = runOps s' tr := by
  obtain ⟨hrec, hcons⟩ := step_consumes_marks s op s' id hop hstep
  have hmono := runOps_mono s' tr id
  have hconf :=
    step_consumed_conflict (runOps s' tr) op' id (hmono.1 hrec) (hmono.2 hcons) hop'
  refine ⟨hconf, ?_⟩
  unfold applyOp
  rw [hconf]

/-- Witness for C2: after account 2 fills order 1, a later cancel by the
owner (with an unrelated create in between) fails with AlreadyFilled and
changes nothing. -/
theorem escrow_exactly_once_witness :
    (EscrowOp.fill 2 1 10).consumes 1 = true ∧
    escrowStep demoEscrow (.fill 2 1 10) = .ok demoFilled ∧
    (EscrowOp.cancel 5 1).consumes 1 = true ∧
    (escrowStep (runOps demoFilled [.create 4 7 10 8 20 60 11]) (.cancel 5 1) =
        .error .AlreadyFilled ∧
      applyOp (runOps demoFilled [.create 4 7 10 8 20 60 11]) (.cancel 5 1) =
        runOps demoFilled [.create 4 7 10 8 20 60 11]) :=
  ⟨by decide, by decide, by decide,
    escrow_exactly_once demoEscrow (.fill 2 1 10) demoFilled 1 (by decide)
      (by decide) [.create 4 7 10 8 20 60 11] (.cancel 5 1) (by decide)⟩

/-- C10: the order_count decrement paths guard against underflow (a zero
count is left unchanged), and a successful fill adds sell_amount to
total_volume and decrements order_count through the same _record_volume
call. -/
theorem order_count_no_underflow
    (c v : Int) (amt : Nat) (hc : 0 ≤ c)
    (s : EscrowState) (buyer escrow_id current_block : Nat) (order : OrderNote)
    (s' : EscrowState) (t : FillTransfers)
    (horder : lookupOrder s.orders escrow_id = some order)
    (hok : fill_order s buyer escrow_id current_block = .ok (s', t)) :
    0 ≤ decrement_order_count c ∧
    decrement_order_count 0 = 0 ∧
    0 ≤ (record_volume amt v c).2 ∧
    (record_volume amt v 0).2 = 0 ∧
    s'.total_volume = s.total_volume + (order.sell_amount : Int) ∧
    s'.order_count =
      (record_volume order.sell_amount s.total_volume s.order_count).2 := by
  obtain ⟨hs, -⟩ :=
    fill_order_ok_spec s buyer escrow_id current_block order s' t horder hok
  subst hs
  refine ⟨?_, rfl, ?_, rfl, rfl, rfl⟩
  · unfold decrement_order_count
    split <;> omega
  · unfold record_volume
    dsimp only
    split <;> omega

/-- Witness for C10 at a concrete fill: the counter moves 1 to 0 and the
volume grows by the sell amount; a decrement at 0 stays 0. -/
theorem order_count_no_underflow_witness :
    (0 : Int) ≤ 3 ∧
    lookupOrder demoEscrow.orders 1 = some demoOrder ∧
    fill_order demoEscrow 2 1 10 =
      .ok ({ demoEscrow with
              consumed := [1], total_volume := 1000, order_count := 0 },
           { buyer_receives := 997, owner_receives := 500, fee_received := 3 }) ∧
    (0 ≤ decrement_order_count 3 ∧
      decrement_order_count 0 = 0 ∧
      0 ≤ (record_volume 4 7 3).2 ∧
      (record_volume 4 7 0).2 = 0 ∧
      ({ demoEscrow with
          consumed := [1], total_volume := 1000,
          order_count := 0 } : EscrowState).total_volume =
        demoEscrow.total_volume + (demoOrder.sell_amount : Int) ∧
      ({ demoEscrow with
          consumed := [1], total_volume := 1000,
          order_count := 0 } : EscrowState).order_count =
        (record_volume demoOrder.sell_amount demoEscrow.total_volume
          demoEscrow.order_count).2) :=
  ⟨by decide, by decide, by decide,
    order_count_no_underflow 3 7 4 (by decide) demoEscrow 2 1 10 demoOrder
      ({ demoEscrow with consumed := [1], total_volume := 1000, order_count := 0 })
      ({ buyer_receives := 997, owner_receives := 500, fee_received := 3 })
      (by decide) (by decide)⟩

/-! ## Concrete pool states -/

/-- Pool configuration: admin 1, pair (7, 8) whitelisted, 30 bps taker
and 10 bps maker fee, not paused. -/
def demoPoolCfg : PoolConfig :=
  { admin := 1, fee_recipient := 9, taker_fee_bps := 30, maker_fee_bps := 10
    total_volume := 0, total_matches := 0, paused := false
    supported_pairs := [pedersen_hash [7, 8]], min_order_size := [] }

/-- Pool with no orders yet. -/
def emptyPool : PoolState :=
  { cfg := demoPoolCfg, orders := [] }

/-- The market BUY order of testable-property scenario 8: amount 10 of
base 7 against quote 8, never matched. Submitted at oracle price 100
(1e18 scale), it locks 10 x 100 x 1.05 = 1050 quote units. -/
def bufferedMarketBuy : PoolOrder :=
  PoolOrder.new_market 5 7 8 0 10 0 100 3

/-- A limit BUY for 10 base units at limit 110 (1e18 scale). -/
def limitBuy : PoolOrder :=
  PoolOrder.new_limit 5 7 8 0 10 (110 * e18) 1 100 21

/-- A limit SELL for 5 base units at limit 100 (1e18 scale). -/
def limitSell : PoolOrder :=
  PoolOrder.new_limit 6 7 8 1 5 (100 * e18) 2 100 22

/-- Pool holding the two live limit orders. -/
def demoMatchPool : PoolState :=
  { cfg := demoPoolCfg, orders := [limitBuy, limitSell] }

/-- The same pool with the emergency pause set. -/
def pausedMatchPool : PoolState :=
  { cfg := { demoPoolCfg with paused := true }, orders := [limitBuy, limitSell] }

/-! ## Claim theorems: pool and configuration -/

/-- C3: the pool cancel path does not refund the tracked locked
collateral. Submitting the scenario market BUY order (amount 10, oracle
price 100 at 1e18 scale, 5 percent buffer) locks exactly 1050 quote
units, yet cancelling that never-matched order refunds
remaining x limit_price / 1e18 = 0, because a market order stores
limit_price 0 and no locked-collateral figure exists to read back. -/
theorem pool_cancel_refund_mismatch :
    (submit_order emptyPool 5 7 8 0 0 10 0 100 (100 * e18) 0 3).toOption.map
        (fun p => (p.1.orders, p.2.2)) = some ([bufferedMarketBuy], 1050) ∧
    submit_lock_amount 0 0 10 0 (100 * e18) = 1050 ∧
    bufferedMarketBuy.remaining = 10 ∧
    cancel_refund bufferedMarketBuy = 0 ∧
    (0 : Nat) ≠ 1050 := by
  decide

/-- C4: the escrow constructor stores any fee_bps without enforcing the
1 percent cap, so fee_bps = 200 survives initialization; set_fee does
reject values above 100 and an accepted update keeps the cap. -/
theorem fee_cap_constructor_unenforced :
    (escrow_constructor 1 9 200).fee_bps = 200 ∧
    ¬ (escrow_constructor 1 9 200).fee_bps ≤ 100 ∧
    set_fee 1 (escrow_constructor 1 9 30) 200 = .error .FeeTooHigh ∧
    set_fee 1 (escrow_constructor 1 9 30) 101 = .error .FeeTooHigh ∧
    set_fee 1 (escrow_constructor 1 9 30) 100 =
      .ok { escrow_constructor 1 9 30 with fee_bps := 100 } := by
  decide

/-- C5: the configuration setters perform no caller identity check:
account 99, distinct from admin 1, successfully updates the escrow fee,
whitelists a pool pair and sets a minimum order size; no call fails with
an Unauthorized error. -/
theorem setters_missing_admin_check :
    (99 : Nat) ≠ (escrow_constructor 1 9 30).admin ∧
    set_fee 99 (escrow_constructor 1 9 30) 50 =
      .ok { escrow_constructor 1 9 30 with fee_bps := 50 } ∧
    (99 : Nat) ≠ demoPoolCfg.admin ∧
    is_pair_supported demoPoolCfg 11 12 = 0 ∧
    is_pair_supported (add_supported_pair 99 demoPoolCfg 11 12) 11 12 = 1 ∧
    get_min_order_size demoPoolCfg 7 = 0 ∧
    get_min_order_size (set_min_order_size 99 demoPoolCfg 7 42) 7 = 42 := by
  decide

/-- C6: the pool submit path is pause-gated and the match path is not,
but the escrow create_order has no pause gate at all (the contract
declares no paused flag) and accepts zero amounts and an already-past
deadline, contradicting the required Paused and InvalidAmount failures. -/
theorem pause_create_order_unenforced :
    submit_order pausedMatchPool 5 7 8 0 1 10 (110 * e18) 100 0 0 31 =
      .error .Paused ∧
    (match_step pausedMatchPool limitBuy limitSell (105 * e18) 10).isSome = true ∧
    lookupOrder (create_order demoEscrow 4 7 0 8 0 0 77).1.orders
        (pedersen_hash [4, 7, 8, 77]) =
      some { owner := 4, sell_token := 7, sell_amount := 0, buy_token := 8
             buy_amount := 0, deadline := 0, nonce := 77 } ∧
    (create_order demoEscrow 4 7 0 8 0 0 77).1.order_count =
      demoEscrow.order_count + 1 := by
  decide

/-- C7: the executed amount of a pool match is min of the two remaining
amounts, but _execute_match never increases filled_amount: after the
demo match of 5 units both stored orders still carry filled_amount 0. -/
theorem match_filled_amount_not_updated :
    (∀ o other : PoolOrder,
      o.match_amount other = min o.remaining other.remaining) ∧
    (match_step demoMatchPool limitBuy limitSell (105 * e18) 10).map
        (fun r => (r.2.1, r.1.orders)) = some (5, [limitBuy, limitSell]) ∧
    limitBuy.remaining = 10 ∧
    limitSell.remaining = 5 ∧
    limitBuy.filled_amount = 0 ∧
    limitSell.filled_amount = 0 := by
  refine ⟨?_, by decide, by decide, by decide, by decide, by decide⟩
  intro o other
  simp only [PoolOrder.match_amount]
  split <;> omega

/-! ## Concrete order-index rows -/

/-- A stored index row. -/
def demoApiOrder : ApiOrder :=
  { id := 1, escrow_address := 2, base_token := 7, quote_token := 8
    side := 0, order_type := 1, status := .ACTIVE, fill_percentage := 0
    created_at := 0, expires_at := 100, updated_at := 0 }

/-- 101 stored rows, one more than the documented pagination bound. -/
def manyApiRows : List ApiOrder :=
  List.replicate 101 demoApiOrder

/-- A FILLED row under id 3. -/
def filledApiOrder : ApiOrder :=
  { demoApiOrder with id := 3, status := .FILLED, fill_percentage := 100 }

/-- Index content for the cancel witness. -/
def cancelDemoRows : List ApiOrder :=
  [filledApiOrder]

/-- The row the cancel handler leaves behind. -/
def cancelledDemoOrder : ApiOrder :=
  { filledApiOrder with status := .CANCELLED, fill_percentage := 0, updated_at := 5 }

/-! ## Claim theorems: order index -/

/-- C8 counterexample: a request with limit = -1 passes the only cap in
the handler (which fires for values above 100) and SQLite treats the
negative LIMIT as unbounded, so 101 records come back. -/
theorem list_orders_negative_limit_escape :
    (handlerListOrders manyApiRows none none none none (some (-1)) none).length
      = 101 ∧
    ¬ (handlerListOrders manyApiRows none none none none
        (some (-1)) none).length ≤ 100 := by
  decide

/-- C8 (amended): for every list request whose limit parameter is absent
or parses to a non-negative value, at most 100 records are returned; a
supplied limit above 100 is capped to 100 and an absent limit defaults
to 50. -/
theorem list_orders_capped (rows : List ApiOrder) (st : Option OrderStatus)
    (bt qt sd : Option Nat) (limitParam offsetParam : Option Int)
    (h : 0 ≤ limitParam.getD 50) :
    (handlerListOrders rows st bt qt sd limitParam offsetParam).length ≤ 100 ∧
    handlerLimit none = 50 ∧
    (100 < limitParam.getD 50 → handlerLimit limitParam = 100) := by
  have hb : 0 ≤ handlerLimit limitParam ∧ handlerLimit limitParam ≤ 100 := by
    unfold handlerLimit
    dsimp only
    split <;> omega
  refine ⟨?_, rfl, ?_⟩
  · unfold handlerListOrders dbListOrders sqlLimitOffset
    dsimp only
    rw [if_neg (by omega)]
    calc (List.take (handlerLimit limitParam).toNat _).length
        ≤ (handlerLimit limitParam).toNat := List.length_take_le _ _
      _ ≤ 100 := by omega
  · intro h100
    unfold handlerLimit
    dsimp only
    split <;> omega

/-- Witness for the amended C8: a request with limit 150 yields at most
100 of the 101 stored rows and the limit is capped to exactly 100. -/
theorem list_orders_capped_witness :
    (0 : Int) ≤ (Option.getD (some (150 : Int)) 50) ∧
    ((handlerListOrders manyApiRows none none none none
        (some 150) none).length ≤ 100 ∧
      handlerLimit none = 50 ∧
      (100 < Option.getD (some (150 : Int)) 50 → handlerLimit (some 150) = 100)) :=
  ⟨by decide,
    list_orders_capped manyApiRows none none none none (some 150) none (by decide)⟩

/-- C9: the index cancel handler is unconditional: for every stored
content and every id it returns the success response, rewrites every row
of that id to CANCELLED with fill_percentage 0, and leaves every other
row untouched; it never answers not-found or state-conflict. -/
theorem cancel_handler_unconditional (rows : List ApiOrder) (id now : Nat) :
    (apiCancelOrder rows id now).2 = .success ∧
    ∀ o ∈ (apiCancelOrder rows id now).1,
      (o.id = id →
        o.status = .CANCELLED ∧ o.fill_percentage = 0 ∧ o.updated_at = now) ∧
      (o.id ≠ id → o ∈ rows) := by
  refine ⟨rfl, ?_⟩
  intro o ho
  simp only [apiCancelOrder, updateOrderStatus, List.mem_map] at ho
  obtain ⟨o₀, ho₀, hmap⟩ := ho
  constructor
  · intro hid
    by_cases h0 : o₀.id = id
    · rw [if_pos h0] at hmap
      rw [← hmap]
      exact ⟨rfl, rfl, rfl⟩
    · rw [if_neg h0] at hmap
      rw [← hmap] at hid
      exact absurd hid h0
  · intro hid
    by_cases h0 : o₀.id = id
    · rw [if_pos h0] at hmap
      rw [← hmap] at hid
      exact absurd h0 hid
    · rw [if_neg h0] at hmap
      rw [← hmap]
      exact ho₀

/-- Witness for C9: cancelling id 3 over a store whose only row is
already FILLED still succeeds and rewrites the row to CANCELLED. -/
theorem cancel_handler_unconditional_witness :
    cancelledDemoOrder ∈ (apiCancelOrder cancelDemoRows 3 5).1 ∧
    (cancelledDemoOrder.status = OrderStatus.CANCELLED ∧
      cancelledDemoOrder.fill_percentage = 0 ∧
      cancelledDemoOrder.updated_at = 5) :=
  ⟨by decide,
    ((cancel_handler_unconditional cancelDemoRows 3 5).2 cancelledDemoOrder
      (by decide)).1 (by decide)⟩

end Umbra
